import Mathlib

/-!
# A shallow embedding of `nestex.py`

`nestex.py` is an interactive wrapper around an external LaTeX build driver
(`latexmk`), a directory-mirroring tool (`rsync`) and a bibliography cache
tool (`biber`).  This file embeds its control flow and filesystem effects in
Lean and proves the behavioural properties stated about it.

Modelling decisions, in order of appearance in the source:

* Paths are strings relative to the project root (`BASE_DIR` in the source):
  `TEMP = ".temp"`, `OUT = "out"`, `SRC = "src"`.
* The filesystem is a pair of lists: existing directory paths, and files as
  path/content pairs.  `shutil.rmtree(p, ignore_errors=True)` removes every
  path equal to `p` or below `p`, and silently does nothing when no such path
  exists.
* External tools are an oracle `Env`: the output of `biber --cache`, the
  relative sub-directory structure that `rsync -a --include */ --exclude *`
  mirrors, whether that rsync invocation succeeds (its exit status is ignored
  by the source, which calls `subprocess.run` without `check`), and for each
  document the PDF content `latexmk` produces, or `none` when the build
  fails.  Only the `.pdf` artifact matters to any claim, so auxiliary build
  files are not modelled.
* The source fixes the document list `FILES` and the artifact name prefix
  `PREFIX` as module constants; we gather exactly these two in a `Config`
  record so that the specification's example scenario (documents `["main"]`,
  empty prefix) is statable, and `nestexConfig` holds the source's values.
* Python exceptions are explicit: `KeyError` from a dictionary lookup,
  `ValueError` from `int()` on a malformed string, `FileNotFoundError` from
  `shutil.copyfile` on a missing source.  A raising routine returns
  `.error (e, fs)` carrying the filesystem state at raise time; `main`'s
  `try/except KeyError` catches exactly `KeyError`.
-/

namespace Nestex

/-- A Python exception relevant to `nestex.py`. -/
inductive PyErr where
  | keyError
  | valueError
  | fileNotFound
deriving DecidableEq, Repr

/-- The filesystem: existing directories, and files with their contents. -/
structure FS where
  dirs : List String
  files : List (String × String)
deriving DecidableEq, Repr

/-- The two module constants of `nestex.py` that the claims vary:
`FILES` (the processable documents, in declared order) and `PREFIX`
(prepended to every artifact name). -/
structure Config where
  FILES : List String
  PREFIX : String
deriving DecidableEq, Repr

/-- Oracle for the external tools `nestex.py` shells out to. -/
structure Env where
  /-- What `subprocess.getoutput("biber --cache")` returns. -/
  biberCache : String
  /-- Relative paths of the sub-directories of `SRC` that rsync mirrors. -/
  srcStructure : List String
  /-- Whether the rsync mirroring invocation succeeds. -/
  rsyncOk : Bool
  /-- Content of the PDF latexmk produces for a document, `none` on failure. -/
  latexmkOut : String → Option String

/-- `TEMP = BASE_DIR / ".temp"`, as a root-relative path. -/
def TEMP : String := ".temp"

/-- `OUT = BASE_DIR / "out"`, as a root-relative path. -/
def OUT : String := "out"

/-- `SRC = BASE_DIR / "src"`, as a root-relative path. -/
def SRC : String := "src"

/-- The source's `FILES` list, in declared order. -/
def sourceFILES : List String :=
  ["main_online", "main_print", "abstract", "kurzfassung",
   "kurzfassung_kurz", "publications", "author_contribution", "declaration"]

/-- The source's configuration: its `FILES` and its `PREFIX`. -/
def nestexConfig : Config :=
  { FILES := sourceFILES, PREFIX := "tranter_diss" }

/-- The source's `ROUTINES` list, in declared order. -/
def ROUTINES : List String := ["compile", "watch", "compile_all", "clean"]

/-- The initial `LATEXMK` command string. -/
def LATEXMK : String := "latexmk -cd"

/-- `{i: f for i, f in zip(range(1, len(l) + 1), l)}`: the enumeration
dictionary, keys `1 .. len l`, as an association list. -/
def mkDict (l : List String) : List (Int × String) :=
  ((List.range l.length).zip l).map (fun p => ((p.1 : Int) + 1, p.2))

/-- `ROUTINES_DICT`: routine index (from 1) to routine name. -/
def ROUTINES_DICT : List (Int × String) := mkDict ROUTINES

/-- `FILES_DICT` for a given configuration: document index (from 1) to name. -/
def FILES_DICT (cfg : Config) : List (Int × String) := mkDict cfg.FILES

/-- `Path.mkdir(parents=True, exist_ok=True)`: create the directory if absent. -/
def mkdirP (fs : FS) (d : String) : FS :=
  if d ∈ fs.dirs then fs else { fs with dirs := fs.dirs ++ [d] }

/-- Create each directory of the list in turn, skipping those present. -/
def addDirs (fs : FS) : List String → FS
  | [] => fs
  | d :: rest => addDirs (mkdirP fs d) rest

/-- Update an association list at a key, appending when the key is new. -/
def setEntry : List (String × String) → String → String → List (String × String)
  | [], p, c => [(p, c)]
  | (q, d) :: rest, p, c =>
    if q = p then (p, c) :: rest else (q, d) :: setEntry rest p c

/-- Write a file (create or overwrite). -/
def writeF (fs : FS) (p c : String) : FS :=
  { fs with files := setEntry fs.files p c }

/-- Read a file's content, `none` when absent. -/
def readF (fs : FS) (p : String) : Option String := fs.files.lookup p

/-- Whether path `p` is `root` itself or lies below `root`. -/
def pathWithin (root p : String) : Bool :=
  p = root || (root ++ "/").data.isPrefixOf p.data

/-- `shutil.rmtree(root, ignore_errors=True)`: drop every path at or below
`root`; a missing tree is silently ignored (nothing to drop). -/
def rmtreeIgnore (fs : FS) (root : String) : FS :=
  { dirs := fs.dirs.filter (fun d => !pathWithin root d),
    files := fs.files.filter (fun e => !pathWithin root e.1) }

/-- `rsync -a SRC/ dest --include */ --exclude *`: replicate the directory
hierarchy of `SRC` (no files) into `dest`, creating `dest` itself.  The
source ignores the exit status, so a failed invocation is silent. -/
def rsyncDirs (env : Env) (fs : FS) (dest : String) : FS :=
  if env.rsyncOk then
    addDirs fs (dest :: env.srcStructure.map (fun d => dest ++ "/" ++ d))
  else fs

/-- Whitespace stripped by Python `int()` around its argument. -/
def pyWS (c : Char) : Bool := c = ' ' || c = '\t' || c = '\n' || c = '\r'

/-- Strip `pyWS` from both ends of a character list. -/
def trimChars (l : List Char) : List Char :=
  ((l.dropWhile pyWS).reverse.dropWhile pyWS).reverse

/-- Value of a non-empty all-digit character list, `none` otherwise. -/
def digitsVal (l : List Char) : Option Nat :=
  if l ≠ [] ∧ l.all Char.isDigit then
    some (l.foldl (fun n c => 10 * n + (c.toNat - 48)) 0)
  else none

/-- Python `int(s)`: optional surrounding whitespace, optional sign, digits;
`none` models an uncaught `ValueError`. -/
def parsePyInt (s : String) : Option Int :=
  match trimChars s.data with
  | '-' :: rest => (digitsVal rest).map (fun n => -(n : Int))
  | '+' :: rest => (digitsVal rest).map (fun n => (n : Int))
  | rest => (digitsVal rest).map (fun n => (n : Int))

/-- `input(...) or 1` followed by `int(...)`: an empty reply defaults to 1,
otherwise the reply is parsed. -/
def idOfInput (s : String) : Option Int :=
  if s = "" then some 1 else parsePyInt s

/-- Python `str.lower()` (restricted to the case folding Lean's
`Char.toLower` performs, which agrees with Python on the replies of
interest). -/
def lowerStr (s : String) : String := ⟨s.data.map Char.toLower⟩

/-- `{"y": True, "n": False}.get((reply or "y").lower(), False)`:
silent mode is chosen iff the reply is empty or lowercases to `"y"`. -/
def silentOf (s : String) : Bool :=
  let t := lowerStr (if s = "" then "y" else s)
  if t = "y" then true else if t = "n" then false else false

/-- The message printed by `main`'s `except KeyError` handler. -/
def unexpectedIndexMsg : String := "Unexpected index. Stopping..."

/-- `_init_temp_dir(file)`: ensure `TEMP` and `OUT` exist, mirror the source
directory structure into `TEMP/file`, and return that path.  Total: the
Python function raises nothing itself. -/
def _init_temp_dir (env : Env) (fs : FS) (file : String) : FS × String :=
  let fs1 := mkdirP fs TEMP
  let fs2 := mkdirP fs1 OUT
  let temp_dir := TEMP ++ "/" ++ file
  (rsyncDirs env fs2 temp_dir, temp_dir)

/-- `_user_file_selector()`: prompt reply `s`; empty defaults to 1;
`FILES_DICT[int(file_id)]` raises `KeyError` when out of range and
`int(...)` raises `ValueError` on malformed input. -/
def _user_file_selector (cfg : Config) (s : String) : Except PyErr String :=
  match idOfInput s with
  | none => .error .valueError
  | some fid =>
    match (FILES_DICT cfg).lookup fid with
    | none => .error .keyError
    | some f => .ok f

/-- The path of the PDF latexmk leaves in the staged directory. -/
def pdfPath (temp_dir file : String) : String :=
  temp_dir ++ "/" ++ file ++ ".pdf"

/-- `f"{OUT}/{PREFIX}_{file}.pdf"`: the artifact path in the output root. -/
def artifactPath (cfg : Config) (file : String) : String :=
  OUT ++ "/" ++ cfg.PREFIX ++ "_" ++ file ++ ".pdf"

/-- `_compile(temp_dir, file)`: run latexmk (writing the PDF into the staged
directory when the build succeeds), then `shutil.copyfile` the PDF to the
output root; a missing PDF raises `FileNotFoundError` at the copy step. -/
def _compile (cfg : Config) (env : Env) (fs : FS) (temp_dir file : String) :
    Except (PyErr × FS) FS :=
  let fs1 :=
    match env.latexmkOut file with
    | some c => writeF fs (pdfPath temp_dir file) c
    | none => fs
  match readF fs1 (pdfPath temp_dir file) with
  | none => .error (.fileNotFound, fs1)
  | some c => .ok (writeF fs1 (artifactPath cfg file) c)

/-- `compile()`: select a file, stage, compile.  The file selection happens
before `_init_temp_dir`, so a selector error leaves the filesystem as is. -/
def compile (cfg : Config) (env : Env) (fs : FS) (fileIn : String) :
    Except (PyErr × FS) FS :=
  match _user_file_selector cfg fileIn with
  | .error e => .error (e, fs)
  | .ok file =>
    let p := _init_temp_dir env fs file
    _compile cfg env p.1 p.2 file

/-- `watch()`: select a file, stage, then run latexmk in preview mode, which
performs no artifact copy of its own. -/
def watch (cfg : Config) (env : Env) (fs : FS) (fileIn : String) :
    Except (PyErr × FS) FS :=
  match _user_file_selector cfg fileIn with
  | .error e => .error (e, fs)
  | .ok file => .ok (_init_temp_dir env fs file).1

/-- The loop body of `compile_all`, also returning the list of documents
actually attempted (staged and handed to `_compile`), in order. -/
def compileSeq (cfg : Config) (env : Env) :
    List String → FS → List String × Except (PyErr × FS) FS
  | [], fs => ([], .ok fs)
  | f :: rest, fs =>
    let p := _init_temp_dir env fs f
    match _compile cfg env p.1 p.2 f with
    | .error e => ([f], .error e)
    | .ok fs2 =>
      let q := compileSeq cfg env rest fs2
      (f :: q.1, q.2)

/-- `compile_all()`: stage and compile every configured document in declared
order; an uncaught error aborts the remaining iteration. -/
def compile_all (cfg : Config) (env : Env) (fs : FS) : Except (PyErr × FS) FS :=
  (compileSeq cfg env cfg.FILES fs).2

/-- `clean()`: delete the biber cache directory and the scratch root, each
with `ignore_errors=True`; never raises. -/
def clean (env : Env) (fs : FS) : Except (PyErr × FS) FS :=
  .ok (rmtreeIgnore (rmtreeIgnore fs env.biberCache) TEMP)

/-- `globals()[name]()`: call the routine selected by name. -/
def callRoutine (cfg : Config) (env : Env) (fs : FS) (name fileIn : String) :
    Except (PyErr × FS) FS :=
  if name = "compile" then compile cfg env fs fileIn
  else if name = "watch" then watch cfg env fs fileIn
  else if name = "compile_all" then compile_all cfg env fs
  else if name = "clean" then clean env fs
  else .error (.keyError, fs)

/-- Observable outcome of one run of `main`. -/
structure RunResult where
  /-- The final `LATEXMK` command string (the global after the silent toggle). -/
  latexmk : String
  /-- The routine `main` invoked through `globals()`, if any. -/
  invoked : Option String
  /-- Lines printed by `main`'s own error handler. -/
  stdout : List String
  /-- The final filesystem. -/
  fs : FS
  /-- An exception that escaped `main` uncaught, if any. -/
  err : Option PyErr
deriving Repr

/-- Outcome of `main`'s `try` block once a routine name has been found:
`except KeyError` catches a `KeyError` raised anywhere inside the call and
prints the message; every other exception escapes uncaught. -/
def dispatchOutcome (cfg : Config) (env : Env) (lat : String) (fs : FS)
    (name fileIn : String) : RunResult :=
  match callRoutine cfg env fs name fileIn with
  | .ok fs2 => ⟨lat, some name, [], fs2, none⟩
  | .error (.keyError, fs2) => ⟨lat, some name, [unexpectedIndexMsg], fs2, none⟩
  | .error (e, fs2) => ⟨lat, some name, [], fs2, some e⟩

/-- `main()`: toggle silent mode onto `LATEXMK`, read the routine index
(empty defaults to 1), look the routine up in `ROUTINES_DICT` and call it;
a `KeyError` (bad routine index, or one raised inside the routine) prints
the error message, a `ValueError` from `int(...)` escapes uncaught. -/
def main (cfg : Config) (env : Env) (fs : FS)
    (silentIn routineIn fileIn : String) : RunResult :=
  let lat := if silentOf silentIn then LATEXMK ++ " -silent" else LATEXMK
  match idOfInput routineIn with
  | none => ⟨lat, none, [], fs, some .valueError⟩
  | some rid =>
    match ROUTINES_DICT.lookup rid with
    | none => ⟨lat, none, [unexpectedIndexMsg], fs, none⟩
    | some name => dispatchOutcome cfg env lat fs name fileIn

/-- The staged PDF path for a document: `TEMP/file/file.pdf`. -/
def stagedPdf (file : String) : String := pdfPath (TEMP ++ "/" ++ file) file

/-- The files of `fs` whose path lies at or below `root`. -/
def filesUnder (fs : FS) (root : String) : List (String × String) :=
  fs.files.filter (fun e => pathWithin root e.1)

/-- The empty filesystem. -/
def emptyFS : FS := ⟨[], []⟩

/-- The specification's example configuration: documents `["main"]`, empty
prefix. -/
def exampleConfig : Config := { FILES := ["main"], PREFIX := "" }

/-- A concrete environment: every tool behaves, latexmk succeeds exactly on
`"main"` producing the PDF content `"PDF"`. -/
def exampleEnv : Env :=
  { biberCache := "bcache", srcStructure := ["chapters"], rsyncOk := true,
    latexmkOut := fun f => if f = "main" then some "PDF" else none }

/-- A concrete environment in which latexmk fails on every document. -/
def failEnv : Env :=
  { biberCache := "bcache", srcStructure := [], rsyncOk := true,
    latexmkOut := fun _ => none }

/-- A two-document configuration, for exercising the abort behaviour of
`compile_all`. -/
def abConfig : Config := { FILES := ["alpha", "beta"], PREFIX := "p" }

/-- An environment whose latexmk succeeds on `"alpha"` and fails on
`"beta"`. -/
def abEnv : Env :=
  { biberCache := "bcache", srcStructure := [], rsyncOk := true,
    latexmkOut := fun f => if f = "alpha" then some "A" else none }

/-- The filesystem after one successful stage-and-compile step for document
`f` whose build produced PDF content `c`. -/
def stepFS (cfg : Config) (env : Env) (fs : FS) (f c : String) : FS :=
  writeF (writeF (_init_temp_dir env fs f).1 (stagedPdf f) c)
    (artifactPath cfg f) c

/-! ## Helper lemmas about the filesystem model -/

theorem lookup_setEntry (l : List (String × String)) (p c q : String) :
    (setEntry l p c).lookup q = if q = p then some c else l.lookup q := by
  induction l with
  | nil =>
    by_cases h : q = p
    · simp [setEntry, List.lookup, h]
    · simp [setEntry, List.lookup, h, beq_eq_false_iff_ne.mpr h]
  | cons e rest ih =>
    obtain ⟨k, d⟩ := e
    by_cases hk : k = p
    · subst hk
      by_cases hq : q = k
      · simp [setEntry, List.lookup, hq]
      · simp [setEntry, List.lookup, hq, beq_eq_false_iff_ne.mpr hq]
    · by_cases hq : q = k
      · subst hq
        simp [setEntry, List.lookup, hk, Ne.symm hk]
      · simp [setEntry, List.lookup, hk, hq, beq_eq_false_iff_ne.mpr hq, ih]

theorem readF_writeF (fs : FS) (p c q : String) :
    readF (writeF fs p c) q = if q = p then some c else readF fs q := by
  simp [readF, writeF, lookup_setEntry]

theorem files_mkdirP (fs : FS) (d : String) : (mkdirP fs d).files = fs.files := by
  unfold mkdirP; split <;> rfl

theorem files_addDirs (l : List String) : ∀ fs : FS,
    (addDirs fs l).files = fs.files := by
  induction l with
  | nil => intro fs; rfl
  | cons d rest ih => intro fs; simp [addDirs, ih, files_mkdirP]

theorem files_init (env : Env) (fs : FS) (f : String) :
    ((_init_temp_dir env fs f).1).files = fs.files := by
  unfold _init_temp_dir rsyncDirs
  split <;> simp [files_addDirs, files_mkdirP]

theorem snd_init (env : Env) (fs : FS) (f : String) :
    (_init_temp_dir env fs f).2 = TEMP ++ "/" ++ f := rfl

theorem readF_init (env : Env) (fs : FS) (f q : String) :
    readF (_init_temp_dir env fs f).1 q = readF fs q := by
  simp [readF, files_init]

theorem dirs_mkdirP_mem (fs : FS) (d x : String) (h : x ∈ fs.dirs) :
    x ∈ (mkdirP fs d).dirs := by
  unfold mkdirP; split <;> simp [h]

theorem dirs_mkdirP_self (fs : FS) (d : String) : d ∈ (mkdirP fs d).dirs := by
  unfold mkdirP; split <;> simp_all

theorem mkdirP_of_mem (fs : FS) (d : String) (h : d ∈ fs.dirs) :
    mkdirP fs d = fs := by
  simp [mkdirP, h]

theorem dirs_addDirs_mem (l : List String) : ∀ (fs : FS) (x : String),
    x ∈ fs.dirs → x ∈ (addDirs fs l).dirs := by
  induction l with
  | nil => intro fs x h; exact h
  | cons d rest ih => intro fs x h; exact ih _ _ (dirs_mkdirP_mem fs d x h)

theorem dirs_addDirs_self (l : List String) : ∀ (fs : FS) (d : String),
    d ∈ l → d ∈ (addDirs fs l).dirs := by
  induction l with
  | nil => intro fs d h; cases h
  | cons a rest ih =>
    intro fs d h
    rcases List.mem_cons.mp h with h | h
    · subst h; exact dirs_addDirs_mem rest _ _ (dirs_mkdirP_self fs d)
    · exact ih _ _ h

theorem addDirs_of_mem (l : List String) : ∀ fs : FS,
    (∀ d ∈ l, d ∈ fs.dirs) → addDirs fs l = fs := by
  induction l with
  | nil => intro fs _; rfl
  | cons a rest ih =>
    intro fs h
    have ha : a ∈ fs.dirs := h a (by simp)
    simp [addDirs, mkdirP_of_mem fs a ha]
    exact ih fs (fun d hd => h d (by simp [hd]))

theorem dirs_rsync_mem (env : Env) (fs : FS) (td x : String) (h : x ∈ fs.dirs) :
    x ∈ (rsyncDirs env fs td).dirs := by
  unfold rsyncDirs; split
  · exact dirs_addDirs_mem _ _ _ h
  · exact h

theorem init_idem (env : Env) (fs : FS) (f : String) :
    (_init_temp_dir env ((_init_temp_dir env fs f).1) f).1
      = (_init_temp_dir env fs f).1 := by
  simp only [_init_temp_dir]
  have h1 : TEMP ∈
      (rsyncDirs env (mkdirP (mkdirP fs TEMP) OUT) (TEMP ++ "/" ++ f)).dirs :=
    dirs_rsync_mem _ _ _ _ (dirs_mkdirP_mem _ _ _ (dirs_mkdirP_self _ _))
  have h2 : OUT ∈
      (rsyncDirs env (mkdirP (mkdirP fs TEMP) OUT) (TEMP ++ "/" ++ f)).dirs :=
    dirs_rsync_mem _ _ _ _ (dirs_mkdirP_self _ _)
  rw [mkdirP_of_mem _ _ h1, mkdirP_of_mem _ _ h2]
  by_cases hok : env.rsyncOk
  · simp only [rsyncDirs, hok, if_true]
    exact addDirs_of_mem _ _ (fun d hd => dirs_addDirs_self _ _ _ hd)
  · simp [rsyncDirs, hok]

/-! ## Helper lemmas about paths -/

theorem artifactPath_inj (cfg : Config) (f g : String)
    (h : artifactPath cfg f = artifactPath cfg g) : f = g := by
  have hd := congrArg String.data h
  simp [artifactPath, OUT, String.data_append] at hd
  exact String.ext hd

theorem stagedPdf_inj (f g : String) (h : stagedPdf f = stagedPdf g) : f = g := by
  have hd := congrArg String.data h
  simp [stagedPdf, pdfPath, TEMP, String.data_append] at hd
  have hl : f.data.length = g.data.length := by
    have h2 := congrArg List.length hd
    simp only [List.length_append, List.length_cons] at h2
    omega
  obtain ⟨h1, _⟩ := List.append_inj hd hl
  exact String.ext h1

theorem artifactPath_ne_stagedPdf (cfg : Config) (f g : String) :
    artifactPath cfg f ≠ stagedPdf g := by
  intro h
  have hd := congrArg String.data h
  simp [artifactPath, stagedPdf, pdfPath, OUT, TEMP, String.data_append] at hd

theorem pathWithin_OUT_staged (f : String) :
    pathWithin OUT (stagedPdf f) = false := by
  simp [pathWithin, stagedPdf, pdfPath, TEMP, OUT, String.ext_iff,
    String.data_append, List.isPrefixOf]

theorem pathWithin_OUT_artifact (cfg : Config) (f : String) :
    pathWithin OUT (artifactPath cfg f) = true := by
  simp [pathWithin, artifactPath, OUT, String.ext_iff, String.data_append,
    List.isPrefixOf]

/-! ## Helper lemmas about filtering and deletion -/

theorem filter_setEntry_false (q : String → Bool) (l : List (String × String))
    (p c : String) (hp : q p = false) :
    (setEntry l p c).filter (fun e => q e.1) = l.filter (fun e => q e.1) := by
  induction l with
  | nil => simp [setEntry, hp]
  | cons e rest ih =>
    obtain ⟨k, d⟩ := e
    by_cases hk : k = p
    · subst hk; simp [setEntry, hp]
    · simp [setEntry, hk, ih]
      by_cases hq : q k = true <;> simp [hq, ih]

theorem filter_setEntry_fresh (q : String → Bool) (l : List (String × String))
    (p c : String) (hp : q p = true)
    (hl : l.filter (fun e => q e.1) = []) :
    (setEntry l p c).filter (fun e => q e.1) = [(p, c)] := by
  induction l with
  | nil => simp [setEntry, hp]
  | cons e rest ih =>
    obtain ⟨k, d⟩ := e
    have hqk : q k = false := by
      by_cases hq : q k
      · exfalso; rw [List.filter_cons_of_pos (by simpa using hq)] at hl; cases hl
      · simpa using hq
    have hrest : rest.filter (fun e => q e.1) = [] := by
      rwa [List.filter_cons_of_neg (by simp [hqk])] at hl
    by_cases hk : k = p
    · subst hk; rw [hqk] at hp; cases hp
    · rw [show setEntry ((k, d) :: rest) p c = (k, d) :: setEntry rest p c from by
        simp [setEntry, hk]]
      rw [List.filter_cons_of_neg (by simp [hqk])]
      exact ih hrest

theorem rmtree_of_absent (fs : FS) (root : String)
    (hd : ∀ d ∈ fs.dirs, pathWithin root d = false)
    (hf : ∀ e ∈ fs.files, pathWithin root e.1 = false) :
    rmtreeIgnore fs root = fs := by
  unfold rmtreeIgnore
  have h1 : fs.dirs.filter (fun d => !pathWithin root d) = fs.dirs :=
    List.filter_eq_self.mpr (fun a ha => by simp [hd a ha])
  have h2 : fs.files.filter (fun e => !pathWithin root e.1) = fs.files :=
    List.filter_eq_self.mpr (fun a ha => by simp [hf a ha])
  rw [h1, h2]

/-! ## Helper lemmas about the compile step and the dictionaries -/

theorem _compile_ok (cfg : Config) (env : Env) (fs : FS) (td f c : String)
    (h : env.latexmkOut f = some c) :
    _compile cfg env fs td f
      = .ok (writeF (writeF fs (pdfPath td f) c) (artifactPath cfg f) c) := by
  unfold _compile
  rw [h]
  simp [readF_writeF]

theorem _compile_fail (cfg : Config) (env : Env) (fs : FS) (td f : String)
    (h : env.latexmkOut f = none) (h2 : readF fs (pdfPath td f) = none) :
    _compile cfg env fs td f = .error (.fileNotFound, fs) := by
  unfold _compile
  rw [h]
  simp only []
  rw [h2]

theorem compile_of_sel (cfg : Config) (env : Env) (fs : FS) (fIn file : String)
    (h : _user_file_selector cfg fIn = .ok file) :
    compile cfg env fs fIn
      = _compile cfg env (_init_temp_dir env fs file).1 (TEMP ++ "/" ++ file) file := by
  unfold compile
  rw [h]
  rfl

theorem ROUTINES_DICT_eq :
    ROUTINES_DICT
      = [(1, "compile"), (2, "watch"), (3, "compile_all"), (4, "clean")] := rfl

theorem ROUTINES_DICT_lookup_none (i : Int) (h : i < 1 ∨ 4 < i) :
    ROUTINES_DICT.lookup i = none := by
  have h1 : (i == (1 : Int)) = false := beq_eq_false_iff_ne.mpr (by omega)
  have h2 : (i == (2 : Int)) = false := beq_eq_false_iff_ne.mpr (by omega)
  have h3 : (i == (3 : Int)) = false := beq_eq_false_iff_ne.mpr (by omega)
  have h4 : (i == (4 : Int)) = false := beq_eq_false_iff_ne.mpr (by omega)
  rw [ROUTINES_DICT_eq]
  simp [List.lookup, h1, h2, h3, h4]

theorem FILES_DICT_nestex_lookup_none (j : Int) (h : j < 1 ∨ 8 < j) :
    (FILES_DICT nestexConfig).lookup j = none := by
  have e : FILES_DICT nestexConfig =
      [(1, "main_online"), (2, "main_print"), (3, "abstract"),
       (4, "kurzfassung"), (5, "kurzfassung_kurz"), (6, "publications"),
       (7, "author_contribution"), (8, "declaration")] := rfl
  have h1 : (j == (1 : Int)) = false := beq_eq_false_iff_ne.mpr (by omega)
  have h2 : (j == (2 : Int)) = false := beq_eq_false_iff_ne.mpr (by omega)
  have h3 : (j == (3 : Int)) = false := beq_eq_false_iff_ne.mpr (by omega)
  have h4 : (j == (4 : Int)) = false := beq_eq_false_iff_ne.mpr (by omega)
  have h5 : (j == (5 : Int)) = false := beq_eq_false_iff_ne.mpr (by omega)
  have h6 : (j == (6 : Int)) = false := beq_eq_false_iff_ne.mpr (by omega)
  have h7 : (j == (7 : Int)) = false := beq_eq_false_iff_ne.mpr (by omega)
  have h8 : (j == (8 : Int)) = false := beq_eq_false_iff_ne.mpr (by omega)
  rw [e]
  simp [List.lookup, h1, h2, h3, h4, h5, h6, h7, h8]

/-! ## Helper lemmas about the dispatcher -/

theorem dispatchOutcome_latexmk (cfg : Config) (env : Env) (lat : String)
    (fs : FS) (name fIn : String) :
    (dispatchOutcome cfg env lat fs name fIn).latexmk = lat := by
  unfold dispatchOutcome; split <;> rfl

theorem dispatchOutcome_invoked (cfg : Config) (env : Env) (lat : String)
    (fs : FS) (name fIn : String) :
    (dispatchOutcome cfg env lat fs name fIn).invoked = some name := by
  unfold dispatchOutcome; split <;> rfl

theorem main_latexmk (cfg : Config) (env : Env) (fs : FS) (sIn rIn fIn : String) :
    (main cfg env fs sIn rIn fIn).latexmk
      = if silentOf sIn then LATEXMK ++ " -silent" else LATEXMK := by
  simp only [main]
  split
  · rfl
  · split
    · rfl
    · exact dispatchOutcome_latexmk ..

theorem silentOf_iff (s : String) :
    silentOf s = true ↔ (s = "" ∨ lowerStr s = "y") := by
  unfold silentOf
  by_cases he : s = ""
  · subst he
    simp [show lowerStr "y" = "y" from by decide]
  · simp only [he, if_false, false_or]
    by_cases hy : lowerStr s = "y"
    · simp [hy]
    · simp only [hy, if_false]
      by_cases hn : lowerStr s = "n" <;> simp [hn, hy]

/-! ## Helper lemmas about the compile-all loop -/

theorem compileSeq_cons_ok (cfg : Config) (env : Env) (f : String)
    (rest : List String) (fs : FS) (c : String) (h : env.latexmkOut f = some c) :
    compileSeq cfg env (f :: rest) fs
      = (f :: (compileSeq cfg env rest (stepFS cfg env fs f c)).1,
         (compileSeq cfg env rest (stepFS cfg env fs f c)).2) := by
  simp only [compileSeq]
  rw [snd_init, _compile_ok cfg env _ (TEMP ++ "/" ++ f) f c h]
  rfl

theorem seq_ok (cfg : Config) (env : Env) (g : String → String) :
    ∀ l : List String, l.Nodup →
    ∀ fs : FS, (∀ f ∈ l, env.latexmkOut f = some (g f)) →
    ∃ fs2, compileSeq cfg env l fs = (l, .ok fs2)
      ∧ (∀ f ∈ l, readF fs2 (artifactPath cfg f) = some (g f))
      ∧ (∀ q, (∀ f ∈ l, q ≠ artifactPath cfg f ∧ q ≠ stagedPdf f) →
          readF fs2 q = readF fs q) := by
  intro l
  induction l with
  | nil =>
    intro _ fs _
    exact ⟨fs, rfl, by simp, fun q _ => rfl⟩
  | cons f rest ih =>
    intro hnd fs hmk
    have hf : env.latexmkOut f = some (g f) := hmk f (List.mem_cons_self f rest)
    obtain ⟨fs2, hseq, hart, hframe⟩ :=
      ih (List.Nodup.of_cons hnd) (stepFS cfg env fs f (g f))
        (fun x hx => hmk x (List.mem_cons_of_mem f hx))
    have hfx : f ∉ rest := (List.nodup_cons.mp hnd).1
    refine ⟨fs2, ?_, ?_, ?_⟩
    · rw [compileSeq_cons_ok cfg env f rest fs (g f) hf, hseq]
    · intro x hx
      rcases List.mem_cons.mp hx with h | h
      · subst h
        rw [hframe (artifactPath cfg x) ?_]
        · show readF (writeF (writeF (_init_temp_dir env fs x).1
            (stagedPdf x) (g x)) (artifactPath cfg x) (g x))
              (artifactPath cfg x) = some (g x)
          rw [readF_writeF]
          exact if_pos rfl
        · intro y hy
          refine ⟨fun hcontra => ?_, artifactPath_ne_stagedPdf cfg x y⟩
          exact hfx (by rw [artifactPath_inj cfg x y hcontra]; exact hy)
      · exact hart x h
    · intro q hq
      rw [hframe q (fun x hx => hq x (List.mem_cons_of_mem f hx))]
      obtain ⟨ha, hs⟩ := hq f (List.mem_cons_self f rest)
      show readF (writeF (writeF (_init_temp_dir env fs f).1
          (stagedPdf f) (g f)) (artifactPath cfg f) (g f)) q = readF fs q
      rw [readF_writeF, if_neg ha, readF_writeF, if_neg hs, readF_init]

theorem seq_fail (cfg : Config) (env : Env) (g : String → String)
    (b : String) (post : List String) (hb : env.latexmkOut b = none) :
    ∀ pre : List String, b ∉ pre →
    ∀ fs : FS, (∀ f ∈ pre, env.latexmkOut f = some (g f)) →
    readF fs (stagedPdf b) = none →
    ∃ efs, compileSeq cfg env (pre ++ b :: post) fs
      = (pre ++ [b], .error (.fileNotFound, efs)) := by
  intro pre
  induction pre with
  | nil =>
    intro _ fs _ hsb
    refine ⟨(_init_temp_dir env fs b).1, ?_⟩
    simp only [List.nil_append, compileSeq]
    rw [snd_init, _compile_fail cfg env _ (TEMP ++ "/" ++ b) b hb ?_]
    show readF (_init_temp_dir env fs b).1 (pdfPath (TEMP ++ "/" ++ b) b) = none
    rw [show pdfPath (TEMP ++ "/" ++ b) b = stagedPdf b from rfl, readF_init]
    exact hsb
  | cons f pre2 ih =>
    intro hbp fs hpre hsb
    have hf : env.latexmkOut f = some (g f) := hpre f (List.mem_cons_self f pre2)
    have hbf : b ≠ f := fun h => hbp (h ▸ List.mem_cons_self f pre2)
    have hsb2 : readF (stepFS cfg env fs f (g f)) (stagedPdf b) = none := by
      show readF (writeF (writeF (_init_temp_dir env fs f).1
          (stagedPdf f) (g f)) (artifactPath cfg f) (g f)) (stagedPdf b) = none
      rw [readF_writeF, if_neg (fun h => artifactPath_ne_stagedPdf cfg f b h.symm),
          readF_writeF, if_neg (fun h => hbf (stagedPdf_inj b f h)),
          readF_init]
      exact hsb
    obtain ⟨efs, hseq⟩ := ih (fun h => hbp (List.mem_cons_of_mem f h))
      (stepFS cfg env fs f (g f))
      (fun x hx => hpre x (List.mem_cons_of_mem f hx)) hsb2
    refine ⟨efs, ?_⟩
    show compileSeq cfg env ((f :: pre2) ++ b :: post) fs
      = ((f :: pre2) ++ [b], .error (.fileNotFound, efs))
    rw [List.cons_append,
        compileSeq_cons_ok cfg env f (pre2 ++ b :: post) fs (g f) hf, hseq]
    rfl

/-! ## The claims -/

/-- C1: For every routine index in the configured range 1..4, the dispatcher
invokes exactly the routine whose name occupies that position in the routine
list (1 - compile, 2 - watch, 3 - compile_all, 4 - clean) and no other
action: the whole run is the dispatch of exactly that routine. -/
theorem dispatch_range_exact (cfg : Config) (env : Env) (fs : FS)
    (sIn fIn s : String) (i : Int)
    (hp : idOfInput s = some i) (h1 : 1 ≤ i) (h4 : i ≤ 4) :
    ∃ name, ROUTINES_DICT.lookup i = some name
      ∧ ((i = 1 ∧ name = "compile") ∨ (i = 2 ∧ name = "watch")
          ∨ (i = 3 ∧ name = "compile_all") ∨ (i = 4 ∧ name = "clean"))
      ∧ main cfg env fs sIn s fIn
          = dispatchOutcome cfg env
              (if silentOf sIn then LATEXMK ++ " -silent" else LATEXMK)
              fs name fIn := by
  interval_cases i
  · exact ⟨"compile", rfl, by simp, by
      simp only [main, hp, show ROUTINES_DICT.lookup 1 = some "compile" from rfl]⟩
  · exact ⟨"watch", rfl, by simp, by
      simp only [main, hp, show ROUTINES_DICT.lookup 2 = some "watch" from rfl]⟩
  · exact ⟨"compile_all", rfl, by simp, by
      simp only [main, hp,
        show ROUTINES_DICT.lookup 3 = some "compile_all" from rfl]⟩
  · exact ⟨"clean", rfl, by simp, by
      simp only [main, hp, show ROUTINES_DICT.lookup 4 = some "clean" from rfl]⟩

/-- Witness for C1: routine input `"4"` dispatches exactly `clean`. -/
theorem dispatch_range_exact_witness :
    ∃ name, ROUTINES_DICT.lookup 4 = some name
      ∧ (((4 : Int) = 1 ∧ name = "compile") ∨ ((4 : Int) = 2 ∧ name = "watch")
          ∨ ((4 : Int) = 3 ∧ name = "compile_all")
          ∨ ((4 : Int) = 4 ∧ name = "clean"))
      ∧ main nestexConfig failEnv emptyFS "n" "4" ""
          = dispatchOutcome nestexConfig failEnv
              (if silentOf "n" then LATEXMK ++ " -silent" else LATEXMK)
              emptyFS name "" :=
  dispatch_range_exact nestexConfig failEnv emptyFS "n" "" "4" 4
    rfl (by decide) (by decide)

/-- C2: After a successful compile of document `file`, the output root
contains exactly one artifact, named `OUT/PREFIX_file.pdf`, and its content
is the PDF the external build driver produced in the staged directory
(`TEMP/file/file.pdf`).  The witness instantiates the spec's example
scenario: documents `["main"]`, empty prefix, yielding `out/_main.pdf`
sourced from `.temp/main/main.pdf`. -/
theorem compile_artifact_spec (cfg : Config) (env : Env) (fs : FS)
    (fIn file c : String)
    (hsel : _user_file_selector cfg fIn = .ok file)
    (hmk : env.latexmkOut file = some c)
    (hout : filesUnder fs OUT = []) :
    ∃ fs2, compile cfg env fs fIn = .ok fs2
      ∧ filesUnder fs2 OUT = [(artifactPath cfg file, c)]
      ∧ readF fs2 (stagedPdf file) = some c := by
  rw [compile_of_sel cfg env fs fIn file hsel,
      _compile_ok cfg env _ _ file c hmk]
  refine ⟨_, rfl, ?_, ?_⟩
  · show ((writeF (writeF (_init_temp_dir env fs file).1
        (stagedPdf file) c) (artifactPath cfg file) c).files.filter
        (fun e => pathWithin OUT e.1)) = [(artifactPath cfg file, c)]
    simp only [writeF]
    rw [files_init]
    rw [filter_setEntry_fresh (fun x => pathWithin OUT x) _ _ _
        (pathWithin_OUT_artifact cfg file)]
    rw [filter_setEntry_false (fun x => pathWithin OUT x) _ _ _
        (pathWithin_OUT_staged file)]
    exact hout
  · show readF (writeF (writeF (_init_temp_dir env fs file).1
        (stagedPdf file) c) (artifactPath cfg file) c) (stagedPdf file) = some c
    rw [readF_writeF,
      if_neg (fun h => artifactPath_ne_stagedPdf cfg file file h.symm),
      readF_writeF]
    exact if_pos rfl

/-- Witness for C2: the spec's example scenario, `out/_main.pdf` copied from
`.temp/main/main.pdf`. -/
theorem compile_artifact_spec_witness :
    ∃ fs2, compile exampleConfig exampleEnv emptyFS "" = .ok fs2
      ∧ filesUnder fs2 OUT = [("out/_main.pdf", "PDF")]
      ∧ readF fs2 ".temp/main/main.pdf" = some "PDF" := by
  have h := compile_artifact_spec exampleConfig exampleEnv emptyFS "" "main" "PDF"
    rfl rfl rfl
  simpa [show artifactPath exampleConfig "main" = "out/_main.pdf" from by decide,
    show stagedPdf "main" = ".temp/main/main.pdf" from by decide] using h

/-- C3: compile-all stages and compiles each configured document
sequentially in declared order: when every build succeeds it attempts
exactly the full list and leaves one artifact `OUT/PREFIX_name.pdf` per
document; when a document's build fails (and no stale staged PDF masks it),
the attempted list stops at that document and the run aborts with the
copy-step error, so no later document is attempted. -/
theorem compile_all_spec (cfg : Config) (env : Env) (fs : FS)
    (g : String → String) (hnd : cfg.FILES.Nodup) :
    ((∀ f ∈ cfg.FILES, env.latexmkOut f = some (g f)) →
      ∃ fs2, compile_all cfg env fs = .ok fs2
        ∧ (compileSeq cfg env cfg.FILES fs).1 = cfg.FILES
        ∧ ∀ f ∈ cfg.FILES, readF fs2 (artifactPath cfg f) = some (g f))
    ∧ (∀ pre b post, cfg.FILES = pre ++ b :: post →
        (∀ f ∈ pre, env.latexmkOut f = some (g f)) →
        env.latexmkOut b = none →
        readF fs (stagedPdf b) = none →
        (compileSeq cfg env cfg.FILES fs).1 = pre ++ [b]
          ∧ ∃ efs, compile_all cfg env fs = .error (.fileNotFound, efs)) := by
  constructor
  · intro hall
    obtain ⟨fs2, hseq, hart, _⟩ := seq_ok cfg env g cfg.FILES hnd fs hall
    exact ⟨fs2, by unfold compile_all; rw [hseq], by rw [hseq], hart⟩
  · intro pre b post hsplit hpre hb hsb
    have hnd2 : (pre ++ b :: post).Nodup := hsplit ▸ hnd
    have hbp : b ∉ pre := fun hmem =>
      (List.nodup_append.mp hnd2).2.2 hmem (List.mem_cons_self b post)
    obtain ⟨efs, hseq⟩ := seq_fail cfg env g b post hb pre hbp fs hpre hsb
    constructor
    · rw [hsplit, hseq]
    · exact ⟨efs, by unfold compile_all; rw [hsplit, hseq]⟩

/-- Witness for C3: over documents `["alpha", "beta"]` where `beta` fails to
build, the loop attempts exactly `alpha` then `beta` and aborts. -/
theorem compile_all_spec_witness :
    (compileSeq abConfig abEnv abConfig.FILES emptyFS).1 = ["alpha"] ++ ["beta"]
    ∧ ∃ efs, compile_all abConfig abEnv emptyFS
        = .error (.fileNotFound, efs) :=
  (compile_all_spec abConfig abEnv emptyFS (fun _ => "A") (by decide)).2
    ["alpha"] "beta" [] rfl (by decide) rfl rfl

/-- C4: For every routine-selector input parsing to an integer outside 1..4,
the tool prints the error message, performs no filesystem side effects, and
terminates gracefully (no uncaught exception) without invoking any
routine. -/
theorem bad_routine_spec (cfg : Config) (env : Env) (fs : FS)
    (sIn fIn s : String) (i : Int)
    (hp : idOfInput s = some i) (hr : i < 1 ∨ 4 < i) :
    main cfg env fs sIn s fIn
      = ⟨if silentOf sIn then LATEXMK ++ " -silent" else LATEXMK,
         none, [unexpectedIndexMsg], fs, none⟩ := by
  simp only [main, hp, ROUTINES_DICT_lookup_none i hr]

/-- Witness for C4: routine input `"9"` only prints the message. -/
theorem bad_routine_spec_witness :
    main nestexConfig failEnv emptyFS "n" "9" ""
      = ⟨LATEXMK, none, [unexpectedIndexMsg], emptyFS, none⟩ := by
  have h := bad_routine_spec nestexConfig failEnv emptyFS "n" "" "9" 9
    (by decide) (by omega)
  simpa [show silentOf "n" = false from by decide] using h

/-- C5: Staging a document is idempotent — running `_init_temp_dir` twice
for the same document yields the same filesystem as running it once — and
the stager creates directories only, leaving the files untouched (so a
mirror that held no files still holds none). -/
theorem staging_idempotent (env : Env) (fs : FS) (file : String) :
    (_init_temp_dir env ((_init_temp_dir env fs file).1) file).1
      = (_init_temp_dir env fs file).1
    ∧ ((_init_temp_dir env fs file).1).files = fs.files :=
  ⟨init_idem env fs file, files_init env fs file⟩

/-- C6: Running clean when neither the scratch root nor the bibliography
cache directory exists (no path lies at or below either) completes without
raising and leaves the filesystem unchanged; moreover clean never raises on
any filesystem at all. -/
theorem clean_missing_spec (env : Env) (fs : FS)
    (hd : ∀ d ∈ fs.dirs,
      pathWithin env.biberCache d = false ∧ pathWithin TEMP d = false)
    (hf : ∀ e ∈ fs.files,
      pathWithin env.biberCache e.1 = false ∧ pathWithin TEMP e.1 = false) :
    clean env fs = .ok fs
    ∧ ∀ (env2 : Env) (fs2 : FS), ∃ r, clean env2 fs2 = .ok r := by
  constructor
  · unfold clean
    rw [rmtree_of_absent fs env.biberCache (fun d h => (hd d h).1)
          (fun e h => (hf e h).1),
        rmtree_of_absent fs TEMP (fun d h => (hd d h).2) (fun e h => (hf e h).2)]
  · intro env2 fs2
    exact ⟨_, rfl⟩

/-- Witness for C6: clean leaves a filesystem holding only `src` state
unchanged when the scratch root and cache are absent. -/
theorem clean_missing_spec_witness :
    clean exampleEnv ⟨["src"], [("src/a.tex", "x")]⟩
      = .ok ⟨["src"], [("src/a.tex", "x")]⟩ :=
  (clean_missing_spec exampleEnv ⟨["src"], [("src/a.tex", "x")]⟩
    (by decide) (by decide)).1

/-- C7: The dispatcher's prompts default as specified: an empty silent-mode
reply selects silent mode (the quiet flag is appended to the compiler
command), and an empty routine reply selects the first routine, compile. -/
theorem prompt_defaults (cfg : Config) (env : Env) (fs : FS)
    (sIn rIn fIn : String) :
    (main cfg env fs "" rIn fIn).latexmk = LATEXMK ++ " -silent"
    ∧ (main cfg env fs sIn "" fIn).invoked = some "compile" := by
  constructor
  · rw [main_latexmk]
    simp [show silentOf "" = true from by decide]
  · simp only [main, show idOfInput "" = some 1 from rfl,
      show ROUTINES_DICT.lookup 1 = some "compile" from rfl]
    exact dispatchOutcome_invoked ..

/-- C8: For every silent-mode reply, the quiet flag is appended iff the
reply is empty or lowercases to `"y"`; every other reply — `"yes"`
included — leaves the command without the flag. -/
theorem silent_toggle_iff (cfg : Config) (env : Env) (fs : FS)
    (s rIn fIn : String) :
    ((main cfg env fs s rIn fIn).latexmk = LATEXMK ++ " -silent")
      ↔ (s = "" ∨ lowerStr s = "y") := by
  rw [main_latexmk]
  cases hb : silentOf s
  · rw [if_neg (by simp [hb])]
    constructor
    · intro h
      exact absurd h (by decide)
    · intro h
      rw [(silentOf_iff s).mpr h] at hb
      cases hb
  · rw [if_pos (by simp [hb])]
    exact iff_of_true rfl ((silentOf_iff s).mp hb)

/-- C9: During compile or watch, a document-selector input parsing to an
integer outside the configured range 1..8 prints the same
"Unexpected index. Stopping..." message as a bad routine index (the
dispatcher's handler catches the KeyError) and performs no filesystem side
effects, because the selection happens before any directory is created. -/
theorem bad_file_spec (env : Env) (fs : FS) (sIn rIn fIn : String) (i j : Int)
    (hri : idOfInput rIn = some i) (hr : i = 1 ∨ i = 2)
    (hfj : idOfInput fIn = some j) (hj : j < 1 ∨ 8 < j) :
    (main nestexConfig env fs sIn rIn fIn).stdout = [unexpectedIndexMsg]
    ∧ (main nestexConfig env fs sIn rIn fIn).fs = fs
    ∧ (main nestexConfig env fs sIn rIn fIn).err = none := by
  have hsel : _user_file_selector nestexConfig fIn = .error .keyError := by
    unfold _user_file_selector
    rw [hfj]
    simp only []
    rw [FILES_DICT_nestex_lookup_none j hj]
  rcases hr with h | h <;> subst h
  · have hcall : callRoutine nestexConfig env fs "compile" fIn
        = .error (.keyError, fs) := by
      unfold callRoutine compile
      rw [if_pos rfl, hsel]
    simp only [main, hri, show ROUTINES_DICT.lookup 1 = some "compile" from rfl]
    unfold dispatchOutcome
    rw [hcall]
    exact ⟨rfl, rfl, rfl⟩
  · have hcall : callRoutine nestexConfig env fs "watch" fIn
        = .error (.keyError, fs) := by
      unfold callRoutine watch
      rw [if_neg (by decide), if_pos rfl, hsel]
    simp only [main, hri, show ROUTINES_DICT.lookup 2 = some "watch" from rfl]
    unfold dispatchOutcome
    rw [hcall]
    exact ⟨rfl, rfl, rfl⟩

/-- Witness for C9: document input `"9"` during routine 2 (watch) prints the
message and leaves the filesystem untouched. -/
theorem bad_file_spec_witness :
    (main nestexConfig failEnv emptyFS "n" "2" "9").stdout = [unexpectedIndexMsg]
    ∧ (main nestexConfig failEnv emptyFS "n" "2" "9").fs = emptyFS
    ∧ (main nestexConfig failEnv emptyFS "n" "2" "9").err = none :=
  bad_file_spec failEnv emptyFS "n" "2" "9" 2 9 rfl (Or.inr rfl) rfl (by omega)

/-- C10: The directory stager always returns the scratch subdirectory path
`TEMP/file` and never raises (it is a total function of the state);
a failed directory-mirroring invocation is silent — the stager still
performs only its two directory creations and returns normally. -/
theorem stager_total_spec (env : Env) (fs : FS) (file : String) :
    (_init_temp_dir env fs file).2 = TEMP ++ "/" ++ file
    ∧ (env.rsyncOk = false →
        (_init_temp_dir env fs file).1 = mkdirP (mkdirP fs TEMP) OUT) := by
  refine ⟨rfl, fun h => ?_⟩
  simp [_init_temp_dir, rsyncDirs, h]

end Nestex
